import Mathlib

/- Verification of the Chapter Content Model of this repository.

The repository's only source file, src/pages/Chapter2.js, is a static
content artifact: one book chapter encoded as a page module mixing heading
markup (<h1>, <h3>), prose lines, code listings delimited by the literal
markers <pre><code> and </code></pre>, and "Things to Remember" bullet
lists.  The specification describes a Chapter Content Model around it: a
tagged Block data model, a validating `parse` and a pure `render`.  The
parse/render core itself is not in the repository, so it is modelled here
from the specification's words; the chapter content is embedded below,
line by line, from src/pages/Chapter2.js. -/

namespace ChapterModel

/-- Raw input token. Modelled from the spec: the input format is "a single
page module per chapter": a heading line (`<hN>text</hN>`), prose lines,
code listings delimited by literal begin/end markers (`<pre><code>` /
`</code></pre>`), the callout header line "Things to Remember" and its
bullet lines ("✦" followed by a tab and the item text).  A source line is
one token, except that a code-listing delimiter splits its line into the
surrounding text pieces and the marker itself. -/
inductive RawToken where
  | heading (level : Nat) (text : String)
  | text (s : String)
  | codeOpen
  | codeClose
  | calloutHeader
  | bullet (s : String)
  deriving DecidableEq

/-- Block, the tagged union of the spec's data model (§3). -/
inductive Block where
  | heading (level : Nat) (text : String)
  | paragraph (text : String)
  | codeListing (code : String)
  | callout (kind : String) (items : List String)
  | figure (caption : String) (reference : String)
  deriving DecidableEq

/-- ValidationError, the single error kind of the spec (§7):
`ValidationError { reason, blockIndex }`. -/
structure ValidationError where
  reason : String
  blockIndex : Nat
  deriving DecidableEq

/-- ChapterDocument (spec §3): stable id, title, and the ordered blocks. -/
structure ChapterDocument where
  id : String
  title : String
  blocks : List Block
  deriving DecidableEq

/-- Characters the input format encodes as fixed textual entities
(spec §6: braces and angle brackets). -/
def isSpecialChar (c : Char) : Bool :=
  c = '{' || c = '}' || c = '<' || c = '>'

/-- Entity spelling of a special character, as used by the source file:
`&#123;` for `{`, `&#125;` for `}`, `&#60;` for `<`, `&#62;` for `>`. -/
def entityOf (c : Char) : Option (List Char) :=
  if c = '{' then some ['&', '#', '1', '2', '3', ';']
  else if c = '}' then some ['&', '#', '1', '2', '5', ';']
  else if c = '<' then some ['&', '#', '6', '0', ';']
  else if c = '>' then some ['&', '#', '6', '2', ';']
  else none

/-- Re-encode literal text into its entity-encoded raw form (spec §6: the
external encoder's escaping, one character at a time). -/
def encodeList : List Char → List Char
  | [] => []
  | c :: rest =>
    (match entityOf c with
     | some e => e
     | none => [c]) ++ encodeList rest

/-- Decode the entity-encoded raw form into literal text (spec §6: "parse
decodes entities into literal text fields").  The four entities of the
source are decoded; every other character is kept as it stands. -/
def decodeList : List Char → List Char
  | '&' :: '#' :: '1' :: '2' :: '3' :: ';' :: rest => '{' :: decodeList rest
  | '&' :: '#' :: '1' :: '2' :: '5' :: ';' :: rest => '}' :: decodeList rest
  | '&' :: '#' :: '6' :: '0' :: ';' :: rest => '<' :: decodeList rest
  | '&' :: '#' :: '6' :: '2' :: ';' :: rest => '>' :: decodeList rest
  | c :: rest => c :: decodeList rest
  | [] => []

/-- String form of `decodeList`. -/
def decodeEntities (s : String) : String := ⟨decodeList s.data⟩

/-- String form of `encodeList`. -/
def encodeEntities (s : String) : String := ⟨encodeList s.data⟩

/-- Source text a token contributes when it stands inside a code listing
(between begin and end markers everything is literal content). -/
def rawText : RawToken → String
  | .heading _ t => t
  | .text s => s
  | .codeOpen => ""
  | .codeClose => ""
  | .calloutHeader => "Things to Remember"
  | .bullet s => s

/-- Scanner mode: outside any compound block, inside a code listing
(collecting its lines, newest first), or inside a callout list
(collecting its items, newest first). -/
inductive ScanMode where
  | normal
  | code (acc : List String)
  | callout (acc : List String)
  deriving DecidableEq

/-- One token's effect in normal mode: the block it emits (if any) and the
mode the scanner continues in. Modelled from the spec: a heading line
becomes a `Heading`, a prose line a `Paragraph`, `<pre><code>` opens a
listing, a stray `</code></pre>` outside a listing contributes no block
(the spec assigns it no meaning), "Things to Remember" opens a callout,
and a bullet outside a callout is kept as a paragraph. -/
def stepTok : RawToken → Option Block × ScanMode
  | .heading l t => (some (Block.heading l t), .normal)
  | .text s => (some (Block.paragraph s), .normal)
  | .bullet s => (some (Block.paragraph s), .normal)
  | .codeOpen => (none, .code [])
  | .codeClose => (none, .normal)
  | .calloutHeader => (none, .callout [])

/-- Tokens that always emit exactly one block in normal mode. -/
def emitsOneBlock : RawToken → Bool
  | .heading _ _ => true
  | .text _ => true
  | .bullet _ => true
  | _ => false

/-- Scan the token stream into blocks. Modelled from the spec (§4.1): the
scan is total and deterministic; a code listing whose content is truncated
before its matching closing marker yields a `ValidationError` whose
`blockIndex` is the index the offending listing would have had (`n` counts
the blocks already completed). Inside a listing every token is literal
content; the listing's code is the decoded, newline-joined content. -/
def scanBlocks : List RawToken → Nat → ScanMode → Except ValidationError (List Block)
  | [], _, .normal => .ok []
  | [], n, .code _ => .error ⟨"unterminated code listing", n⟩
  | [], _, .callout acc => .ok [Block.callout "remember" acc.reverse]
  | t :: rest, n, .code acc =>
    match t with
    | .codeClose =>
      (scanBlocks rest (n + 1) .normal).map
        (fun bs => Block.codeListing (decodeEntities (String.intercalate "\n" acc.reverse)) :: bs)
    | tok => scanBlocks rest n (.code (rawText tok :: acc))
  | t :: rest, n, .callout acc =>
    match t with
    | .bullet s => scanBlocks rest n (.callout (s :: acc))
    | tok =>
      match stepTok tok with
      | (some b, m) =>
        (scanBlocks rest (n + 2) m).map
          (fun bs => Block.callout "remember" acc.reverse :: b :: bs)
      | (none, m) =>
        (scanBlocks rest (n + 1) m).map
          (fun bs => Block.callout "remember" acc.reverse :: bs)
  | t :: rest, n, .normal =>
    match stepTok t with
    | (some b, m) => (scanBlocks rest (n + 1) m).map (fun bs => b :: bs)
    | (none, m) => scanBlocks rest n m

/-- Is this block a level-1 or level-2 heading? -/
def isH12 : Block → Bool
  | .heading 1 _ => true
  | .heading 2 _ => true
  | _ => false

/-- Is this block a level-3 heading? -/
def isH3 : Block → Bool
  | .heading 3 _ => true
  | _ => false

/-- First violation of the heading-nesting invariant, if any: the index of
a level-3 heading with no preceding level-1 or level-2 heading. Modelled
from the spec (§3): "a level-3 heading must be preceded, at some ancestor
position, by a level-1 or level-2 heading". -/
def findNestingViolation : List Block → Nat → Bool → Option Nat
  | [], _, _ => none
  | b :: rest, i, seen =>
    if isH3 b && !seen then some i
    else findNestingViolation rest (i + 1) (seen || isH12 b)

/-- Title of a document: the text of its first heading block ("" if none). -/
def titleOf : List Block → String
  | [] => ""
  | .heading _ t :: _ => t
  | _ :: rest => titleOf rest

/-- Parse a raw token stream into a validated ChapterDocument. Modelled
from the spec (§4.1): `parse(raw) -> ChapterDocument` fails with
`ValidationError` when blocks would be empty, when the heading nesting
invariant is violated, or when a code listing is unterminated; otherwise
it returns the document (stable id, title from the first heading, and the
blocks in source order). -/
def parse (toks : List RawToken) : Except ValidationError ChapterDocument :=
  match scanBlocks toks 0 .normal with
  | .error e => .error e
  | .ok bs =>
    match findNestingViolation bs 0 false with
    | some i => .error ⟨"heading nesting violation", i⟩
    | none =>
      if bs.isEmpty then .error ⟨"empty document", 0⟩
      else .ok ⟨"chapter", titleOf bs, bs⟩

/-- Render a document for the display layer. Modelled from the spec
(§4.1): a pure function returning the ordered sequence of displayable
blocks, exactly as stored. -/
def render (d : ChapterDocument) : List Block := d.blocks

/-- Render together with the document as it stands after the call.
Modelled from the spec (§3, lifecycle): a ChapterDocument is "consumed
read-only by a display layer", so rendering returns the blocks and leaves
the document as it was. -/
def renderObserving (d : ChapterDocument) : List Block × ChapterDocument :=
  (render d, d)

/-- Did parse succeed on this input? -/
def parseSucceeds (toks : List RawToken) : Bool :=
  match parse toks with
  | Except.ok _ => true
  | Except.error _ => false

/-- The token stream holds a code listing whose content is truncated
before its matching closing marker: some opening marker is never followed
by a closing marker. -/
def HasUnterminatedListing (toks : List RawToken) : Prop :=
  ∃ a b, toks = a ++ RawToken.codeOpen :: b ∧ RawToken.codeClose ∉ b

/-- Position `j` of the block list holds a level-1 or level-2 heading. -/
def IsH12At (bs : List Block) (j : Nat) : Prop :=
  ∃ b, bs.get? j = some b ∧ isH12 b = true

/-- The block list violates the heading-nesting invariant: some level-3
heading has no level-1 or level-2 heading anywhere before it. -/
def ViolatesNesting (bs : List Block) : Prop :=
  ∃ i t, bs.get? i = some (Block.heading 3 t) ∧ ∀ j, j < i → ¬ IsH12At bs j

/-- Chapter content of src/pages/Chapter2.js, one token per source line,
in source order.  Tokenization, mechanical over the file's 593 lines: a
line `<hN>T</hN>` is `heading N T`; a line is split at each occurrence of
the markers `<pre><code>` (`codeOpen`) and `</code></pre>` (`codeClose`),
its remaining nonempty pieces kept as `text`; the line "Things to
Remember" is `calloutHeader`; a line starting with "✦" and a tab is
`bullet` of the rest; every other line (empty lines included) is `text`
of the line as it stands. -/
def chapterRaw : List RawToken := [
  RawToken.heading 1 "Variable Scope",
  RawToken.text "Scope is like oxygen to a programmer. It’s everywhere. You often don’t even think about it. But when it gets polluted . . . you choke.",
  RawToken.text "The good news is that JavaScript’s core scoping rules are simple, well designed, and incredibly powerful. But there are exceptions. Working effectively with JavaScript requires mastering some basic concepts of variable scope as well as the corner cases that can lead to subtle but nasty problems.",
  RawToken.text "",
  RawToken.heading 3 "Item 8: Minimize Use of the Global Object",
  RawToken.text "JavaScript makes it easy to create variables in its global namespace. Global variables take less effort to create, since they don’t require  any kind of declaration, and they are automatically accessible to     all code throughout the program. This convenience makes them an easy temptation for beginners. But seasoned programmers know to avoid global variables. Defining global variables pollutes the common namespace shared by everyone, introducing the possibility of acci- dental name collisions. Globals go against the grain of modularity: They lead to unnecessary coupling between separate components of a program. As convenient as it may be to “code now and organize later,” the best programmers constantly pay attention to the structure of their programs, continuously grouping related functionality and sep- arating unrelated components as a part of the programming process.",
  RawToken.text "Since the global namespace is the only real way for separate com- ponents of a JavaScript program to interact, some uses of the global namespace are unavoidable. A component or library has to define a global name so that other parts of the program can use it. Otherwise, it’s best to keep variables as local as possible. It’s certainly possible  to write a program with nothing but global variables, but it’s asking for trouble. Even very simple functions that define their temporary",
  RawToken.text " ",
  RawToken.text "",
  RawToken.text "variables globally would have to worry whether any other code might use those same variable names:",
  RawToken.codeOpen,
  RawToken.text "var i, n, sum; // globals",
  RawToken.text "function averageScore(players) &#123; sum = 0;",
  RawToken.text "for (i = 0, n = players.length; i &#60; n; i++) &#123; sum += score(players[i]);",
  RawToken.text "&#125;",
  RawToken.text "return sum / n;",
  RawToken.text "&#125;",
  RawToken.codeClose,
  RawToken.text "This definition of averageScore won’t work if the score function it depends on uses any of the same global variables for its own purposes:",
  RawToken.codeOpen,
  RawToken.text "var i, n, sum; // same globals as averageScore!",
  RawToken.text "function score(player) &#123; sum = 0;",
  RawToken.text "for (i = 0, n = player.levels.length; i &#60; n; i++) &#123; sum += player.levels[i].score;",
  RawToken.text "&#125;",
  RawToken.text "return sum;",
  RawToken.text "&#125;",
  RawToken.codeClose,
  RawToken.text "The answer is to keep such variables local to just the portion of code that needs them:",
  RawToken.codeOpen,
  RawToken.text "",
  RawToken.text "function averageScore(players) &#123;",
  RawToken.text "var i, n, sum; sum = 0;",
  RawToken.text "for (i = 0, n = players.length; i &#60; n; i++) &#123; sum += score(players[i]);",
  RawToken.text "&#125;",
  RawToken.text "return sum / n;",
  RawToken.text "&#125;",
  RawToken.text "",
  RawToken.text "function score(player) &#123;",
  RawToken.text "var i, n, sum; sum = 0;",
  RawToken.text "for (i = 0, n = player.levels.length; i &#60; n; i++) &#123; sum += player.levels[i].score;",
  RawToken.text "&#125;",
  RawToken.text "return sum;",
  RawToken.text "&#125;",
  RawToken.codeClose,
  RawToken.text "JavaScript’s  global  namespace  is  also  exposed  as  a  global object,",
  RawToken.text "which is accessible at the top of a program as the initial value of the this keyword. In web browsers, the global object is also bound to the global window variable. Adding or modifying global variables automat- ically updates the global object:",
  RawToken.codeOpen,
  RawToken.text "",
  RawToken.text "this.foo; // undefined foo = \"global foo\"; this.foo; // \"global foo\"",
  RawToken.text "Similarly, updating the global object automatically updates the global namespace:",
  RawToken.text "var foo = \"global foo\"; this.foo = \"changed\"; foo; // \"changed\"",
  RawToken.codeClose,
  RawToken.text "This means that you have two mechanisms to choose from for creating a global variable: You can declare it with var in the global scope, or you can add it to the global object. Either works, but the var decla- ration has the benefit of more clearly conveying the effect on the pro- gram’s scope. Given that a reference to an unbound variable results in a runtime error, making scope clear and simple makes it easier for users of your code to understand what globals it declares.",
  RawToken.text "While it’s best to limit your use of the global object, it does provide one particularly indispensable use. Since the global object provides a dynamic reflection of the global environment, you can use it to query a running environment to detect which features are available on the platform. For example, ES5 introduced a new global JSON object for reading and writing the JSON data format. As a stopgap for deploying code in environments that may or may not have yet provided the JSON object, you can test the global object for its presence and provide an alternate implementation:",
  RawToken.codeOpen,
  RawToken.text "if (!this.JSON) &#123;",
  RawToken.text "this.JSON = &#123;",
  RawToken.text "parse: ...,",
  RawToken.text "stringify: ...",
  RawToken.text "&#125;;",
  RawToken.text "&#125;",
  RawToken.codeClose,
  RawToken.text "If you are already providing an implementation of JSON,  you could    of course simply use your own implementation unconditionally. But built-in implementations provided by the host environment are almost always preferable: They are highly tested for correctness and confor- mance to standards, and quite often provide better performance than a third-party implementation.",
  RawToken.text " ",
  RawToken.text "",
  RawToken.text "The technique of feature detection is especially important in web browsers, where the same code may be executed by a wide variety    of browsers and browser versions. Feature detection is a relatively easy way to make programs robust to the variations in platform fea- ture sets. The technique applies elsewhere, too, such as for sharing libraries that may work both in the browser and in JavaScript server environments.",
  RawToken.text "",
  RawToken.calloutHeader,
  RawToken.bullet "Avoid declaring global variables.",
  RawToken.bullet "Declare variables as locally as possible.",
  RawToken.bullet "Avoid adding properties to the global object.",
  RawToken.bullet "Use the global object for platform feature detection.",
  RawToken.text "",
  RawToken.text "Item 9: Always Declare Local Variables",
  RawToken.text "If there’s one thing more troublesome than a global variable, it’s an unintentional global variable. Unfortunately, JavaScript’s variable assignment rules make it all too easy to create global variables acci- dentally. Instead of raising an error, a program that assigns to an unbound variable simply creates a new global variable and assigns to it. This means that forgetting to declare a local variable silently turns it into a global variable:",
  RawToken.codeOpen,
  RawToken.text "function swap(a, i, j) &#123; temp = a[i]; // global a[i] = a[j];",
  RawToken.text "a[j] = temp;",
  RawToken.text "&#125;",
  RawToken.codeClose,
  RawToken.text "This program manages to execute without error, even though the  lack of a var declaration for the temp variable leads to the accidental creation of a global variable. A proper implementation declares temp with var:",
  RawToken.codeOpen,
  RawToken.text "function swap(a, i, j) &#123; var temp = a[i]; a[i] = a[j];",
  RawToken.text "a[j] = temp;",
  RawToken.text "&#125;",
  RawToken.codeClose,
  RawToken.text "Purposefully creating global variables is bad style, but accidentally creating global variables can be a downright disaster. Because of this, many programmers use lint tools, which inspect your program’s source code for bad style or potential bugs, and often feature the ability to report uses of unbound variables. Typically, a lint tool that checks for undeclared variables takes a user-provided set of known globals (such as those expected to exist in the host environment,     or globals defined in separate files) and then reports any references or assignments to variables that are neither provided in the list nor declared in the program. It’s worth taking some time to explore what development tools are available for JavaScript. Integrating automated checks for common errors such as accidental globals into your devel- opment process can be a lifesaver.",
  RawToken.text "",
  RawToken.calloutHeader,
  RawToken.bullet "Always declare new local variables with var.",
  RawToken.bullet "Consider using lint tools to help check for unbound variables.",
  RawToken.text "",
  RawToken.heading 3 "Item 10: Avoid with",
  RawToken.text "Poor with. There is probably no single more maligned feature in JavaScript. Nevertheless, with came by its notoriety honestly: What- ever conveniences it may offer, it more than makes up for them in unreliability and inefficiency.",
  RawToken.text "The motivations for with are understandable. Programs often need to call a number of methods in sequence on a single object, and it is con- venient to avoid repeated references to the object:",
  RawToken.codeOpen,
  RawToken.text "function status(info) &#123;",
  RawToken.text "var widget = new Widget();",
  RawToken.text "with (widget) &#123; setBackground(\"blue\"); setForeground(\"white\");",
  RawToken.text "setText(\"Status: \" + info); // ambiguous reference",
  RawToken.text "show();",
  RawToken.text "&#125;",
  RawToken.text "&#125;",
  RawToken.codeClose,
  RawToken.text "It’s also tempting to use with to “import” variables from objects serv- ing as modules:",
  RawToken.codeOpen,
  RawToken.text "",
  RawToken.text "function f(x, y) &#123;",
  RawToken.text "with (Math) &#123;",
  RawToken.text "return min(round(x), sqrt(y)); // ambiguous references",
  RawToken.text "&#125;",
  RawToken.text "&#125;",
  RawToken.codeClose,
  RawToken.text " ",
  RawToken.text "",
  RawToken.text "In both cases, with makes it temptingly easy to extract the properties of an object and bind them as local variables in the block.",
  RawToken.text "These examples look appealing. But neither actually does what it’s supposed to. Notice how both examples have two different kinds of variables: those that we expect to refer to properties of the with object, such as setBackground, round, and sqrt, and those that we expect to refer to outer variable bindings, such as info, x, and y. But nothing in the syntax actually distinguishes these two types of variables—they all just look like variables.",
  RawToken.text "In fact, JavaScript treats all variables the same: It  looks them up    in scope, starting with the innermost scope and working its way outward. The with statement treats an object as if it represented a variable scope, so inside the with block, variable lookup starts by searching for  a property of the given variable name. If the property   is not found in the object, then the search continues in outer scopes.",
  RawToken.text "Figure 2.1 shows a diagram of a JavaScript engine’s internal repre- sentation of the scope of the status function while executing the body of its with statement. This is known in the ES5 specification as the lexical environment (or scope chain in older versions of the standard). The innermost scope of the environment is provided by the widget object. The next scope out has bindings for the function’s local vari- ables info and widget. At the next level is a binding for the status function. Notice how, in a normal scope, there are exactly as many bindings stored in that level of the environment as there are vari- ables in that local scope. But for the with scope, the set of bindings is dependent on whatever happens to be in the object at a given point in time.",
  RawToken.text "How confident are we that we know what properties will or won’t be found on the object we provided to with? Every reference to an outer variable in a with block implicitly assumes that there is no property of the same name in the with object—or in any of its prototype objects. Other parts of the program that create or modify the with object   and its prototypes may not share those assumptions. They certainly should not have to read your local code to find what local variables you happen to be using.",
  RawToken.text "This conflict between variable scope and object namespaces makes with blocks extremely brittle. For example, if the widget object in the above example acquires an info property, then suddenly the behav- ior of the status function will use that property instead of the status function’s info parameter. This could happen during the evolution of the source code if, for example, a programmer decides that all widgets",
  RawToken.text " ",
  RawToken.codeOpen,
  RawToken.text "",
  RawToken.text ".hasOwnProperty",
  RawToken.text ".toString",
  RawToken.text ".valueOf",
  RawToken.text "",
  RawToken.text ". . .",
  RawToken.codeClose,
  RawToken.text "",
  RawToken.text "Widget.prototype",
  RawToken.text "Figure 2.1 Lexical environment (or “scope chain”) for the status function",
  RawToken.text "",
  RawToken.text "",
  RawToken.text "should have an info property. Worse, something could add an info property to the Widget prototype object at runtime, causing the status function to start breaking at unpredictable points:",
  RawToken.codeOpen,
  RawToken.text "status(\"connecting\"); // Status: connecting Widget.prototype.info = \"[[widget info]]\"; status(\"connected\");\t// Status: [[widget info]]",
  RawToken.text "Similarly, the function f above could be broken if someone adds an x",
  RawToken.text "or y property to the Math object:",
  RawToken.text "Math.x = 0;",
  RawToken.text "Math.y = 0;",
  RawToken.text "f(2, 9); // 0",
  RawToken.codeClose,
  RawToken.text " ",
  RawToken.text "",
  RawToken.text "It might be unlikely that anyone would add x and y properties to Math. But it’s not always easy to predict whether a particular object might be modified, or might have properties you didn’t know about. And as it turns out, a feature that is unpredictable for humans can also be unpredictable for optimizing compilers. Normally, JavaScript scopes can be represented with efficient internal data structures  and variable lookups can be performed quickly. But because a with block requires searching an object’s prototype chain for all variables in its body, it will typically run much more slowly than an ordinary block.",
  RawToken.text "There is no single feature of JavaScript that directly replaces with as a better alternative. In some cases, the best alternative is simply to bind an object to a short variable name:",
  RawToken.codeOpen,
  RawToken.text "",
  RawToken.text "function status(info) &#123;",
  RawToken.text "var w = new Widget(); w.setBackground(\"blue\"); w.setForeground(\"white\"); w.addText(\"Status: \" + info); w.show();",
  RawToken.text "&#125;",
  RawToken.codeClose,
  RawToken.text "The behavior of this version is much more predictable. None of the variable references are sensitive to the contents of the object w. So even if some code modifies the Widget prototype, status continues to behave as expected:",
  RawToken.text "status(\"connecting\"); // Status: connecting Widget.prototype.info = \"[[widget info]]\"; status(\"connected\");\t// Status: connected",
  RawToken.text "In other cases, the best approach is to bind local variables explicitly to the relevant properties:",
  RawToken.codeOpen,
  RawToken.text "function f(x, y) &#123;",
  RawToken.text "var min = Math.min, round = Math.round, sqrt = Math.sqrt;",
  RawToken.text "return min(round(x), sqrt(y));",
  RawToken.text "&#125;",
  RawToken.text "Again, once we eliminate with, the function’s behavior becomes predictable:",
  RawToken.text "Math.x = 0;",
  RawToken.text "Math.y = 0;",
  RawToken.text "f(2, 9); // 2",
  RawToken.codeClose,
  RawToken.text " ",
  RawToken.text "",
  RawToken.calloutHeader,
  RawToken.bullet "Avoid using with statements.",
  RawToken.bullet "Use short variable names for repeated access to an object.",
  RawToken.bullet "Explicitly bind local variables to object properties instead of implic- itly binding them with a with statement.",
  RawToken.text "",
  RawToken.text "Item 11: Get Comfortable with Closures",
  RawToken.text "Closures may be an unfamiliar concept to programmers coming from languages that don’t support them. And they may seem intimidating at first. But rest assured that making the effort to master closures will pay for itself many times over.",
  RawToken.text "Luckily, there’s really nothing to be afraid of. Understanding closures only requires learning three essential facts. The first fact is that JavaScript allows you to refer to variables that were defined outside of the current function:",
  RawToken.codeOpen,
  RawToken.text "",
  RawToken.text "function makeSandwich() &#123;",
  RawToken.text "var magicIngredient = \"peanut butter\";",
  RawToken.text "function make(filling) &#123;",
  RawToken.text "return magicIngredient + \" and \" + filling;",
  RawToken.text "&#125;",
  RawToken.text "return make(\"jelly\");",
  RawToken.text "&#125;",
  RawToken.text "makeSandwich(); // \"peanut butter and jelly\"",
  RawToken.codeClose,
  RawToken.text "Notice how the inner make function refers to magicIngredient, a vari- able defined in the outer makeSandwich function.",
  RawToken.text "The second fact is that functions can refer to variables defined in outer functions even after those outer functions have returned! If that sounds implausible, remember that JavaScript functions are first- class objects (see Item 19). That means that you can return an inner function to be called sometime later on:",
  RawToken.text "function sandwichMaker() &#123;",
  RawToken.text "var magicIngredient = \"peanut butter\";",
  RawToken.text "function make(filling) &#123;",
  RawToken.text "return magicIngredient + \" and \" + filling;",
  RawToken.text "&#125;",
  RawToken.text "return make;",
  RawToken.text "&#125;",
  RawToken.text "var f = sandwichMaker();",
  RawToken.text "f(\"jelly\");\t// \"peanut butter and jelly\"",
  RawToken.text " ",
  RawToken.text "",
  RawToken.text "f(\"bananas\");\t// \"peanut butter and bananas\"",
  RawToken.text "f(\"marshmallows\"); // \"peanut butter and marshmallows\"",
  RawToken.text "This is almost identical to the first example, except that instead       of immediately calling make(\"jelly\") inside the outer function, sandwichMaker returns the make function itself. So the value of f is the inner make function, and calling f effectively calls make. But some- how, even though sandwichMaker already returned, make remembers the value of magicIngredient.",
  RawToken.text "How does this work? The answer is that JavaScript function values contain more information than just the code required to execute when they’re called. They also internally store any variables they may refer to that are defined in their enclosing scopes. Functions that keep track of variables from their containing scopes are known as closures. The make function is a closure whose code refers to two outer variables: magicIngredient and filling. Whenever the make function is called, its code is able to refer to these two variables because they are stored in the closure.",
  RawToken.text "A function can refer to any variables in its scope, including the parameters and variables of outer functions. We can use this to make a more general-purpose sandwichMaker:",
  RawToken.text "function sandwichMaker(magicIngredient) &#123;",
  RawToken.text "function make(filling) &#123;",
  RawToken.text "return magicIngredient + \" and \" + filling;",
  RawToken.text "&#125;",
  RawToken.text "return make;",
  RawToken.text "&#125;",
  RawToken.text "var hamAnd = sandwichMaker(\"ham\"); hamAnd(\"cheese\");\t// \"ham and cheese\" hamAnd(\"mustard\");\t// \"ham and mustard\" var turkeyAnd = sandwichMaker(\"turkey\"); turkeyAnd(\"Swiss\");\t// \"turkey and Swiss\"",
  RawToken.text "turkeyAnd(\"Provolone\");\t// \"turkey and Provolone\"",
  RawToken.text "This example creates two distinct functions, hamAnd and turkeyAnd. Even though they both come from the same make definition, they are two distinct objects: The first function stores \"ham\" as the value of magicIngredient, and the second stores \"turkey\".",
  RawToken.text "Closures are one of JavaScript’s most elegant and expressive features, and are at the heart of many useful idioms. JavaScript even provides a more convenient literal syntax for constructing closures, the func- tion expression:",
  RawToken.text " ",
  RawToken.text "",
  RawToken.text "function sandwichMaker(magicIngredient) &#123;",
  RawToken.text "return function(filling) &#123;",
  RawToken.text "return magicIngredient + \" and \" + filling;",
  RawToken.text "&#125;;",
  RawToken.text "&#125;",
  RawToken.text "Notice that this function expression is anonymous: It’s not even nec- essary to name the function since we are only evaluating it to produce a new function value, but do not intend to call it locally. Function expressions can have names as well (see Item 14).",
  RawToken.text "The third and final fact to learn about closures is that they can update the values of outer variables. Closures actually store refer- ences to their outer variables, rather than copying their values. So updates are visible to any closures that have access to them. A simple idiom that illustrates this is a box—an object that stores an internal value that can be read and updated:",
  RawToken.text "function box() &#123;",
  RawToken.text "var val = undefined;",
  RawToken.text "return &#123;",
  RawToken.text "set: function(newVal) &#123; val = newVal; &#125;, get: function() &#123; return val; &#125;,",
  RawToken.text "type: function() &#123; return typeof val; &#125;",
  RawToken.text "&#125;;",
  RawToken.text "&#125;",
  RawToken.text "var b = box();",
  RawToken.text "b.type(); // \"undefined\"",
  RawToken.text "b.set(98.6);",
  RawToken.text "b.get();\t// 98.6",
  RawToken.text "b.type(); // \"number\"",
  RawToken.text "This example produces an object containing three closures: its set, get, and type properties. Each of these closures shares access to the val variable. The set closure updates the value of val, and subse- quently calling get and type sees the results of the update.",
  RawToken.text "",
  RawToken.calloutHeader,
  RawToken.bullet "Functions can refer to variables defined in outer scopes.",
  RawToken.bullet "Closures can outlive the function that creates them.",
  RawToken.bullet "Closures internally store references to their outer variables, and can both read and update their stored variables.",
  RawToken.text " ",
  RawToken.text "",
  RawToken.text "Item 12: Understand Variable Hoisting",
  RawToken.text "JavaScript supports lexical scoping: With only a few exceptions, a ref- erence to a variable foo is bound to the nearest scope in which foo was declared. However, JavaScript does not support block scoping: Variable definitions are not scoped to their nearest enclosing state- ment or block, but rather to their containing function.",
  RawToken.text "Failing to understand this idiosyncrasy of JavaScript can lead to sub- tle bugs such as this:",
  RawToken.text "function isWinner(player, others) &#123;",
  RawToken.text "var highest = 0;",
  RawToken.text "for (var i = 0, n = others.length; i &#60; n; i++) &#123;",
  RawToken.text "var player = others[i];",
  RawToken.text "if (player.score &#62; highest) &#123; highest = player.score;",
  RawToken.text "&#125;",
  RawToken.text "&#125;",
  RawToken.text "return player.score &#62; highest;",
  RawToken.text "&#125;",
  RawToken.text "This program appears to  declare  a  local  variable  player within  the body of a for loop. But because JavaScript variables are func- tion-scoped rather than block-scoped, the inner declaration of player simply redeclares a variable that was already in scope—namely, the player parameter. Each iteration of the loop then overwrites the same variable. As a result, the return statement sees player as the last ele- ment of others instead of the function’s original player argument.",
  RawToken.text "A good way to think about the behavior of JavaScript variable decla- rations is to understand them as consisting of two parts: a declara- tion and an assignment. JavaScript implicitly “hoists” the declaration part to the top of the enclosing function and leaves the assignment in place. In other words, the variable is in scope for the entire function, but it is only assigned at the point where the var statement appears. Figure 2.2 provides a visualization of hoisting.",
  RawToken.text "Hoisting can also lead to confusion about  variable redeclaration.  It is legal to declare the same variable multiple times within the same function. This often comes up when writing multiple loops:",
  RawToken.text "function trimSections(header, body, footer) &#123;",
  RawToken.text "for (var i = 0, n = header.length; i &#60; n; i++) &#123; header[i] = header[i].trim();",
  RawToken.text "&#125;",
  RawToken.text " ",
  RawToken.text "Item 12:  Understand Variable Hoisting\t43",
  RawToken.text "for (var i = 0, n = body.length; i &#60; n; i++) &#123; body[i] = body[i].trim();",
  RawToken.text "&#125;",
  RawToken.text "for (var i = 0, n = footer.length; i &#60; n; i++) &#123; footer[i] = footer[i].trim();",
  RawToken.text "&#125;",
  RawToken.text "&#125;",
  RawToken.text "The trimSections function appears to declare six local variables (three called i and three called n), but hoisting results in only two. In other words, after hoisting, the trimSections function is equivalent to this rewritten version:",
  RawToken.text "function trimSections(header, body, footer) &#123;",
  RawToken.text "var i, n;",
  RawToken.text "for (i = 0, n = header.length; i &#60; n; i++) &#123; header[i] = header[i].trim();",
  RawToken.text "&#125;",
  RawToken.text "for (i = 0, n = body.length; i &#60; n; i++) &#123; body[i] = body[i].trim();",
  RawToken.text "&#125;",
  RawToken.text "for (i = 0, n = footer.length; i &#60; n; i++) &#123; footer[i] = footer[i].trim();",
  RawToken.text "&#125;",
  RawToken.text "&#125;",
  RawToken.text "Because redeclarations can lead to the appearance of distinct vari- ables, some programmers prefer to place all var declarations at the top of their functions, effectively hoisting their variables manually, in order to avoid ambiguity. Regardless of whether you prefer this style, it’s important to understand the scoping rules of JavaScript, both for writing and reading code.",
  RawToken.text "",
  RawToken.text " ",
  RawToken.text "",
  RawToken.text "function f() &#123;",
  RawToken.text "// ...",
  RawToken.text "// ...",
  RawToken.text "&#123;",
  RawToken.text "// ...",
  RawToken.text "var x = / ...\t/;",
  RawToken.text "// ...",
  RawToken.text "&#125;",
  RawToken.text "// ...",
  RawToken.text "&#125;",
  RawToken.text "Figure 2.2 Variable hoisting",
  RawToken.text " ",
  RawToken.text "",
  RawToken.text "function f() &#123;",
  RawToken.text "var x;",
  RawToken.text "// ...",
  RawToken.text "&#123;",
  RawToken.text "// ...",
  RawToken.text "x = / ...\t/;",
  RawToken.text "// ...",
  RawToken.text "&#125;",
  RawToken.text "// ...",
  RawToken.text "&#125;",
  RawToken.text " ",
  RawToken.text "",
  RawToken.text "The one exception to JavaScript’s lack of block scoping is, appropri- ately enough, exceptions. That is, try…catch binds a caught exception to a variable that is scoped just to the catch block:",
  RawToken.text "function test() &#123;",
  RawToken.text "var x = \"var\", result = []; result.push(x);",
  RawToken.text "try &#123;",
  RawToken.text "throw \"exception\";",
  RawToken.text "&#125; catch (x) &#123;",
  RawToken.text "x = \"catch\";",
  RawToken.text "&#125;",
  RawToken.text "result.push(x);",
  RawToken.text "return result;",
  RawToken.text "&#125;",
  RawToken.text "test(); // [\"var\", \"var\"]",
  RawToken.text "",
  RawToken.calloutHeader,
  RawToken.bullet "Variable declarations within a block are implicitly hoisted to the top of their enclosing function.",
  RawToken.bullet "Redeclarations of a variable are treated as a single variable.",
  RawToken.bullet "Consider manually hoisting local variable declarations to avoid confusion.",
  RawToken.text "",
  RawToken.text "Item 13: Use Immediately Invoked Function Expressions to Create Local Scopes",
  RawToken.text "What does this (buggy!) program compute?",
  RawToken.text "function wrapElements(a) &#123;",
  RawToken.text "var result = [], i, n;",
  RawToken.text "for (i = 0, n = a.length; i &#60; n; i++) &#123; result[i] = function() &#123; return a[i]; &#125;;",
  RawToken.text "&#125;",
  RawToken.text "return result;",
  RawToken.text "&#125;",
  RawToken.text "",
  RawToken.text "var wrapped = wrapElements([10, 20, 30, 40, 50]);",
  RawToken.text "var f = wrapped[0]; f(); // ?",
  RawToken.text "The programmer may have intended for it to produce 10, but it actu- ally produces the undefined value.",
  RawToken.text " ",
  RawToken.text "Item 13:  Use IIFEs to Create Local Scopes\t45",
  RawToken.text "",
  RawToken.text "The way to make sense of this example is to understand the distinc- tion between binding and assignment. Entering a scope at runtime allocates a “slot” in memory for each variable binding in that scope. The wrapElements function binds three local variables: result, i, and",
  RawToken.text "n. So when it is called, wrapElements allocates slots for these three variables. On each iteration of the loop, the loop body allocates a clo- sure for the nested function. The bug in the program comes from the fact that the programmer apparently expected the function to store the value of i at the time the nested function was created. But in fact, it contains a reference to i. Since the value of i changes after each function is created, the inner functions end up seeing the final value of i. This is the key point about closures:",
  RawToken.text "Closures store their outer variables by reference, not by value.",
  RawToken.text "So all the closures created by wrapElements refer to the single shared slot for i that was created before the loop. Since each iteration of the loop increments i until it runs off the end of the array, by the time we actually call one of the closures, it looks up index 5 of the array and returns undefined.",
  RawToken.text "Notice that wrapElements would behave exactly the same even if we put the var declarations in the head of the for loop:",
  RawToken.text "function wrapElements(a) &#123;",
  RawToken.text "var result = [];",
  RawToken.text "for (var i = 0, n = a.length; i &#60; n; i++) &#123; result[i] = function() &#123; return a[i]; &#125;;",
  RawToken.text "&#125;",
  RawToken.text "return result;",
  RawToken.text "&#125;",
  RawToken.text "",
  RawToken.text "var wrapped = wrapElements([10, 20, 30, 40, 50]);",
  RawToken.text "var f = wrapped[0]; f(); // undefined",
  RawToken.text "This version looks even a bit more deceptive, because the var declara- tion appears to be inside the loop. But as always, the variable decla- rations are hoisted to the top of the loop. So once again, there is only a single slot allocated for the variable i.",
  RawToken.text "The solution is to force the creation of a local scope by creating a nested function and calling it right away:",
  RawToken.text "function wrapElements(a) &#123;",
  RawToken.text "var result = [];",
  RawToken.text "for (var i = 0, n = a.length; i &#60; n; i++) &#123;",
  RawToken.text " ",
  RawToken.text "",
  RawToken.text "(function() &#123;",
  RawToken.text "var j = i;",
  RawToken.text "result[i] = function() &#123; return a[j]; &#125;;",
  RawToken.text "&#125;)();",
  RawToken.text "&#125;",
  RawToken.text "return result;",
  RawToken.text "&#125;",
  RawToken.text "This technique, known as the immediately invoked function expres- sion, or IIFE (pronounced “iffy”), is an indispensable workaround for JavaScript’s lack of block scoping. An alternate variation is to bind the local variable as a parameter to the IIFE and pass its value as an argument:",
  RawToken.text "function wrapElements(a) &#123;",
  RawToken.text "var result = [];",
  RawToken.text "for (var i = 0, n = a.length; i &#60; n; i++) &#123; (function(j) &#123;",
  RawToken.text "result[i] = function() &#123; return a[j]; &#125;;",
  RawToken.text "&#125;)(i);",
  RawToken.text "&#125;",
  RawToken.text "return result;",
  RawToken.text "&#125;",
  RawToken.text "However, be careful when using an IIFE to create a local scope, because wrapping a block in a function can introduce some subtle changes to the block. First of all, the block cannot contain any break or continue statements that jump outside of the block, since it is ille- gal to break or continue outside of a function. Second, if the block refers to this or the special arguments variable, the IIFE changes their meaning. Chapter 3 discusses techniques for working with this and arguments.",
  RawToken.text "",
  RawToken.calloutHeader,
  RawToken.bullet "Understand the difference between binding and assignment.",
  RawToken.bullet "Closures capture their outer variables by reference, not by value.",
  RawToken.bullet "Use immediately invoked function expressions (IIFEs) to create local scopes.",
  RawToken.bullet "Be aware of the cases where wrapping a block in an IIFE can change its behavior.",
  RawToken.text " ",
  RawToken.text "",
  RawToken.text "Item 14: Beware of Unportable Scoping of Named Function Expressions",
  RawToken.text "JavaScript functions may look the same wherever they go, but their meaning changes depending on the context. Take a code snippet such as the following:",
  RawToken.text "function double(x) &#123; return x\t2; &#125;",
  RawToken.text "Depending on where it appears, this could be either a function dec- laration or a named function expression. A declaration is familiar: It defines a function and binds it to a variable in the current scope. At the top level of a program, for example, the above declaration would create a global function called double. But the same function code can be used as an expression, where it has a very different meaning. For example:",
  RawToken.text "var f = function double(x) &#123; return x\t2; &#125;;",
  RawToken.text "According to the ECMAScript specification, this binds the function   to a variable f rather than double. Of course, we don’t have to give a function expression a name. We could use the anonymous function expression form:",
  RawToken.text "var f = function(x) &#123; return x\t2; &#125;;",
  RawToken.text "The official difference between anonymous and named function expressions is that the latter binds its name as a local variable within the function. This can be used to write recursive function expressions:",
  RawToken.text "var f = function find(tree, key) &#123;",
  RawToken.text "if (!tree) &#123;",
  RawToken.text "return null;",
  RawToken.text "&#125;",
  RawToken.text "if (tree.key === key) &#123;",
  RawToken.text "return tree.value;",
  RawToken.text "&#125;",
  RawToken.text "return find(tree.left, key) || find(tree.right, key);",
  RawToken.text "&#125;;",
  RawToken.text "Note that find is only in scope within the function itself. Unlike a function declaration, a named function expression can’t be referred to externally by its internal name:",
  RawToken.text "find(myTree, \"foo\"); // error: find is not defined",
  RawToken.text " ",
  RawToken.text "",
  RawToken.text "Using named function expressions for recursion may not seem par- ticularly useful, since it’s fine to use the outer scope’s name for the function:",
  RawToken.text "var f = function(tree, key) &#123;",
  RawToken.text "if (!tree) &#123;",
  RawToken.text "return null;",
  RawToken.text "&#125;",
  RawToken.text "if (tree.key === key) &#123;",
  RawToken.text "return tree.value;",
  RawToken.text "&#125;",
  RawToken.text "return f(tree.left, key) || f(tree.right, key);",
  RawToken.text "&#125;;",
  RawToken.text "Or we could just use a declaration:",
  RawToken.text "function find(tree, key) &#123;",
  RawToken.text "if (!tree) &#123;",
  RawToken.text "return null;",
  RawToken.text "&#125;",
  RawToken.text "if (tree.key === key) &#123;",
  RawToken.text "return tree.value;",
  RawToken.text "&#125;",
  RawToken.text "return find(tree.left, key) || find(tree.right, key);",
  RawToken.text "&#125;",
  RawToken.text "var f = find;",
  RawToken.text "The real usefulness of named function expressions, though, is for debugging. Most modern JavaScript environments produce stack traces for Error objects, and the name of a function expression is typ- ically used for its entry in a stack trace. Debuggers with facilities for inspecting the stack typically make similar use of named function expressions.",
  RawToken.text "Sadly, named function expressions have been a notorious source of scoping and compatibility issues, due to a combination of an unfor- tunate mistake in the history of the ECMAScript specification and bugs in popular JavaScript engines. The specification mistake, which existed through ES3, was that JavaScript engines were required to represent the scope of a named function expression as an object, much like the problematic with construct. While this scope object only contains a single property binding the function’s name to the func- tion, it also inherits properties from Object.prototype. This means that just naming a function expression also brings all of the proper- ties of Object.prototype into scope. The results can be surprising:",
  RawToken.text " ",
  RawToken.text "",
  RawToken.text "var constructor = function() &#123; return null; &#125;;",
  RawToken.text "var f = function f() &#123;",
  RawToken.text "return constructor();",
  RawToken.text "&#125;;",
  RawToken.text "f(); // &#123;&#125; (in ES3 environments)",
  RawToken.text "This program looks like it should produce null, but it actually pro- duces a new object, because the named function expression inherits Object.prototype.constructor (i.e., the Object constructor function) in its scope. And just like with, the scope is affected by dynamic changes to Object.prototype. One part of a program could add or delete properties to Object.prototype and variables within named function expressions everywhere would be affected.",
  RawToken.text "Thankfully, ES5 corrected this mistake. But some JavaScript envi- ronments continue to use the obsolete object scoping. Worse, some are even less standards-compliant and use objects as scopes even   for anonymous function expressions! Then, even removing the func- tion expression’s name in the preceding example produces an object instead of the expected null:",
  RawToken.text "var constructor = function() &#123; return null; &#125;;",
  RawToken.text "var f = function() &#123;",
  RawToken.text "return constructor();",
  RawToken.text "&#125;;",
  RawToken.text "f(); // &#123;&#125; (in nonconformant environments)",
  RawToken.text "The best way to avoid these problems on systems that pollute their function expressions’ scopes with objects is to avoid ever adding new properties to Object.prototype and avoid using local variables with any of the names of the standard Object.prototype properties.",
  RawToken.text "The next bug seen in popular JavaScript engines is hoisting named function expressions as if they were declarations. For example:",
  RawToken.text "var f = function g() &#123; return 17; &#125;;",
  RawToken.text "g(); // 17 (in nonconformant environments)",
  RawToken.text "To be clear, this is not standards-compliant behavior. Worse, some JavaScript environments even treat the two functions f and g as dis- tinct objects, leading to unnecessary memory allocation! A reason- able workaround for this behavior is to create a local variable of the same name as the function expression and assign it to null:",
  RawToken.text "var f = function g() &#123; return 17; &#125;;",
  RawToken.text "var g = null;",
  RawToken.text "Redeclaring the variable with var ensures that g is bound even in those environments that do not erroneously hoist the function",
  RawToken.text " ",
  RawToken.text "",
  RawToken.text "expression, and setting it to null ensures that the duplicate function can be garbage-collected.",
  RawToken.text "It would certainly be reasonable to conclude that named function expressions are just too problematic to be worth using. A less aus- tere response would be to use named function expressions during development for debugging, and to run code through a preprocessor to anonymize all function expressions before shipping. But one thing is certain: You should always be clear about what platforms you are shipping on (see Item 1). The worst thing you could do is to litter your code with workarounds that aren’t even necessary for the platforms you support.",
  RawToken.text "",
  RawToken.calloutHeader,
  RawToken.bullet "Use named function expressions to improve stack traces in Error",
  RawToken.text "objects and debuggers.",
  RawToken.bullet "Beware of pollution of function expression scope with Object",
  RawToken.text ".prototype in ES3 and buggy JavaScript environments.",
  RawToken.bullet "Beware of hoisting and duplicate allocation of named function expressions in buggy JavaScript environments.",
  RawToken.bullet "Consider avoiding named function expressions or removing them before shipping.",
  RawToken.bullet "If you are shipping in properly implemented ES5 environments, you’ve got nothing to worry about.",
  RawToken.text "",
  RawToken.text "Item 15: Beware of Unportable Scoping of Block-Local Function Declarations",
  RawToken.text "The saga of context sensitivity continues with nested function decla- rations. It may surprise you to know that there is no standard way to declare functions inside a local block. Now, it’s perfectly legal and cus- tomary to nest a function declaration at the top of another function:",
  RawToken.text "function f() &#123; return \"global\"; &#125;",
  RawToken.text "",
  RawToken.text "function test(x) &#123;",
  RawToken.text "function f() &#123; return \"local\"; &#125;",
  RawToken.text "",
  RawToken.text "var result = [];",
  RawToken.text "if (x) &#123;",
  RawToken.text "result.push(f());",
  RawToken.text "&#125;",
  RawToken.text " ",
  RawToken.text "Item 15: Beware of Unportable Scoping of Block-Local Function Declarations 51",
  RawToken.text "",
  RawToken.text "result.push(f());",
  RawToken.text "return result;",
  RawToken.text "&#125;",
  RawToken.text "",
  RawToken.text "test(true);\t// [\"local\", \"local\"]",
  RawToken.text "test(false); // [\"local\"]",
  RawToken.text "But it’s an entirely different story if we move f into a local block:",
  RawToken.text "function f() &#123; return \"global\"; &#125;",
  RawToken.text "",
  RawToken.text "function test(x) &#123; var result = []; if (x) &#123;",
  RawToken.text "function f() &#123; return \"local\"; &#125; // block-local",
  RawToken.text "",
  RawToken.text "result.push(f());",
  RawToken.text "&#125;",
  RawToken.text "result.push(f());",
  RawToken.text "return result;",
  RawToken.text "&#125;",
  RawToken.text "",
  RawToken.text "test(true);\t// ?",
  RawToken.text "test(false); // ?",
  RawToken.text "You might expect the first call to test to  produce  the  array  [\"local\", \"global\"] and the second to produce [\"global\"], since the inner f appears to be local to the if block. But recall that JavaScript is not block-scoped, so the inner f should be in scope for the whole body of test. A reasonable second guess would be [\"local\", \"local\"] and [\"local\"]. And in fact, some JavaScript environments behave this way. But not all of them! Others conditionally bind the inner f at runtime, based on whether its enclosing block is executed. (Not only does this make code harder to understand, but it also leads to slow performance, not unlike with statements.)",
  RawToken.text "What does the ECMAScript standard have to say about this state of affairs? Surprisingly, almost nothing. Until ES5, the standard did  not even acknowledge the existence of block-local function declara- tions; function declarations are  officially  specified  to  appear  only at the outermost level of other functions or of a program. ES5 even recommends turning function declarations in nonstandard contexts into a warning or error, and popular JavaScript implementations report them as an error in strict mode—a strict-mode program with a block-local function declaration will report a syntax error. This helps detect unportable code, and it clears a path for future versions of the",
  RawToken.text " ",
  RawToken.text "",
  RawToken.text "standard to specify more sensible and portable semantics for block- local declarations.",
  RawToken.text "In the meantime, the best way to write portable functions is to avoid ever putting function declarations in local blocks or substatements.  If you want to write a nested function declaration, put it at the outer- most level of its parent function, as shown in the original version of the code. If, on the other hand, you need to choose between functions conditionally, the best way to do this is with var declarations and function expressions:",
  RawToken.text "function f() &#123; return \"global\"; &#125;",
  RawToken.text "",
  RawToken.text "function test(x) &#123;",
  RawToken.text "var g = f, result = [];",
  RawToken.text "if (x) &#123;",
  RawToken.text "g = function() &#123; return \"local\"; &#125;",
  RawToken.text "",
  RawToken.text "result.push(g());",
  RawToken.text "&#125;",
  RawToken.text "result.push(g());",
  RawToken.text "return result;",
  RawToken.text "&#125;",
  RawToken.text "This eliminates the mystery of the scoping of the inner variable (renamed here to g): It is unconditionally bound as a local variable, and only the assignment is conditional. The result is unambiguous and fully portable.",
  RawToken.text "",
  RawToken.calloutHeader,
  RawToken.bullet "Always keep function declarations at the outermost level of a pro- gram or a containing function to avoid unportable behavior.",
  RawToken.bullet "Use var declarations with conditional assignment instead of condi- tional function declarations.",
  RawToken.text "",
  RawToken.text "Item 16: Avoid Creating Local Variables with eval",
  RawToken.text "JavaScript’s eval function is an incredibly powerful and flexible tool. Powerful tools are easy to abuse, so they’re worth understanding. One of the simplest ways to run afoul of eval is to allow it to interfere with scope.",
  RawToken.text "Calling eval interprets its argument as a JavaScript program, but that program runs in the local scope of the caller. The global variables of the embedded program get created as locals of the calling program:",
  RawToken.text " ",
  RawToken.text "Item 16:  Avoid Creating Local Variables with eval\t53",
  RawToken.text "",
  RawToken.text "function test(x) &#123;",
  RawToken.text "eval(\"var y = x;\"); // dynamic binding",
  RawToken.text "return y;",
  RawToken.text "&#125;",
  RawToken.text "test(\"hello\"); // \"hello\"",
  RawToken.text "This example looks clear, but it behaves subtly differently than the var declaration would behave if it were directly included in the body of test. The var declaration is only executed when the eval function is called. Placing an eval in a conditional context brings its variables into scope only if the conditional is executed:",
  RawToken.text "var y = \"global\";",
  RawToken.text "function test(x) &#123;",
  RawToken.text "if (x) &#123;",
  RawToken.text "eval(\"var y = 'local';\"); // dynamic binding",
  RawToken.text "&#125;",
  RawToken.text "return y;",
  RawToken.text "&#125;",
  RawToken.text "test(true);\t// \"local\"",
  RawToken.text "test(false); // \"global\"",
  RawToken.text "Basing scoping decisions on the dynamic behavior of a program is almost always a bad idea. The result is that simply understanding which binding a variable refers to requires following the details of how the program executes. This is especially tricky when the source code passed to eval is not even defined locally:",
  RawToken.text "var y = \"global\";",
  RawToken.text "function test(src) &#123;",
  RawToken.text "eval(src); // may dynamically bind",
  RawToken.text "return y;",
  RawToken.text "&#125;",
  RawToken.text "test(\"var y = 'local';\"); // \"local\"",
  RawToken.text "test(\"var z = 'local';\"); // \"global\"",
  RawToken.text "This code is brittle and unsafe: It gives external callers the power to change the internal scoping of the test function. Expecting eval to modify its containing scope is also not safe for compatibility with ES5 strict mode, which runs eval in a nested scope to prevent this kind of pollution. A simple way to ensure that eval does not affect outer scopes is to run it in an explicitly nested scope:",
  RawToken.text "var y = \"global\";",
  RawToken.text "function test(src) &#123;",
  RawToken.text "(function() &#123; eval(src); &#125;)();",
  RawToken.text "return y;",
  RawToken.text "&#125;",
  RawToken.text " ",
  RawToken.text "",
  RawToken.text "test(\"var y = 'local';\"); // \"global\"",
  RawToken.text "test(\"var z = 'local';\"); // \"global\"",
  RawToken.text "",
  RawToken.calloutHeader,
  RawToken.bullet "Avoid creating variables with eval that pollute the caller’s scope.",
  RawToken.bullet "If eval code might create global variables, wrap the call in a nested function to prevent scope pollution.",
  RawToken.text "",
  RawToken.text "Item 17: Prefer Indirect eval to Direct eval",
  RawToken.text "The eval function has a secret weapon: It’s more than just a function.",
  RawToken.text "Most functions have access to the scope where they are defined, and nothing else. But eval has access to the full scope at the point where it’s called. This is such immense power that when compiler writers first tried to optimize JavaScript, they discovered that eval made it difficult to make any function calls efficient, since every function call needed to make its scope available at runtime in case the function turned out to be eval.",
  RawToken.text "As a compromise, the language standard evolved to distinguish two different ways of calling eval. A function call involving the identifier eval is considered a “direct” call to eval:",
  RawToken.text "var x = \"global\";",
  RawToken.text "function test() &#123;",
  RawToken.text "var x = \"local\";",
  RawToken.text "return eval(\"x\"); // direct eval",
  RawToken.text "&#125;",
  RawToken.text "test(); // \"local\"",
  RawToken.text "In this case, compilers are required to ensure that the executed pro- gram has complete access to the local scope of the caller. The other kind of call to eval is considered “indirect,” and evaluates its argu- ment in global scope. For example, binding the eval function to a dif- ferent variable name and calling it through the alternate name causes the code to lose access to any local scope:",
  RawToken.text "var x = \"global\";",
  RawToken.text "function test() &#123; var x = \"local\"; var f = eval;",
  RawToken.text "return f(\"x\"); // indirect eval",
  RawToken.text "&#125;",
  RawToken.text "test(); // \"global\"",
  RawToken.text " ",
  RawToken.text "Item 17: Prefer Indirect eval to Direct eval\t55",
  RawToken.text "",
  RawToken.text "The exact definition of direct eval depends on the rather idiosyncratic specification language of the ECMAScript standard. In practice, the only syntax that can produce a direct eval is a variable with the name eval, possibly surrounded by (any number of) parentheses. A concise way to write an indirect call to eval is to use the expression sequenc- ing operator (,) with an apparently pointless number literal:",
  RawToken.text "(0,eval)(src);",
  RawToken.text "How does this peculiar-looking function call work? The number lit- eral 0 is evaluated but its value is ignored, and the parenthesized sequence expression produces the eval function. So (0,eval) behaves almost exactly the same as the plain identifier eval, with the one important difference being that the whole call expression is treated as an indirect eval.",
  RawToken.text "The power of direct eval can be easily abused. For example, evaluat- ing a source string coming from over the network can expose inter- nals to untrusted parties. Item 16 talks about the dangers of eval dynamically creating local variables; these dangers are only possible with direct eval. Moreover, direct eval costs dearly in performance.  In general, you should assume that direct eval causes its containing function and all containing functions up to the outermost level of the program to be considerably slower.",
  RawToken.text "There are occasionally reasons to use direct eval. But unless there’s  a clear need for the extra power of inspecting local scope, use the less easily abused and less expensive indirect eval.",
  RawToken.text "",
  RawToken.calloutHeader,
  RawToken.bullet "Wrap eval in a sequence expression with a useless literal to force the use of indirect eval.",
  RawToken.bullet "Prefer indirect eval to direct eval whenever possible."
]

/-- Code-listing delimiter tokens. -/
def isCodeDelim : RawToken → Bool
  | .codeOpen => true
  | .codeClose => true
  | _ => false

/-- The code-listing delimiters of a token stream, in source order. -/
def codeDelimsOf (toks : List RawToken) : List RawToken :=
  toks.filter isCodeDelim

/-- The headings of a token stream: (level, text) pairs in source order. -/
def headingsOf (toks : List RawToken) : List (Nat × String) :=
  toks.filterMap fun t =>
    match t with
    | .heading l s => some (l, s)
    | _ => none

/-- The code-listing delimiters of the chapter source, in source order. -/
def chapterCodeDelims : List RawToken := codeDelimsOf chapterRaw

/-- The headings of the chapter source, in source order. -/
def chapterHeadings : List (Nat × String) := headingsOf chapterRaw

/-- The blocks the scan produces for the chapter source. -/
def chapterBlocks : List Block :=
  match scanBlocks chapterRaw 0 .normal with
  | .ok bs => bs
  | .error _ => []

/-- Titles of Items 9 and 11 through 17, exactly as they stand in the
chapter source, where they carry no heading markup. -/
def plainItemTitles : List String := [
  "Item 9: Always Declare Local Variables",
  "Item 11: Get Comfortable with Closures",
  "Item 12: Understand Variable Hoisting",
  "Item 13: Use Immediately Invoked Function Expressions to Create Local Scopes",
  "Item 14: Beware of Unportable Scoping of Named Function Expressions",
  "Item 15: Beware of Unportable Scoping of Block-Local Function Declarations",
  "Item 16: Avoid Creating Local Variables with eval",
  "Item 17: Prefer Indirect eval to Direct eval"]

/-- The spec's §8 example input: a chapter whose first block is a level-1
heading "Variable Scope", then a level-3 heading "Item 8: Minimize Use of
the Global Object", then a trailing "remember" callout (the trailing
"Things to Remember" list of Item 8 in the source). -/
def exampleRaw : List RawToken := [
  RawToken.heading 1 "Variable Scope",
  RawToken.heading 3 "Item 8: Minimize Use of the Global Object",
  RawToken.calloutHeader,
  RawToken.bullet "Avoid declaring global variables.",
  RawToken.bullet "Declare variables as locally as possible.",
  RawToken.bullet "Avoid adding properties to the global object.",
  RawToken.bullet "Use the global object for platform feature detection."]

/-- The three blocks the spec's §8 example must parse to. -/
def exampleBlocks : List Block := [
  Block.heading 1 "Variable Scope",
  Block.heading 3 "Item 8: Minimize Use of the Global Object",
  Block.callout "remember" [
    "Avoid declaring global variables.",
    "Declare variables as locally as possible.",
    "Avoid adding properties to the global object.",
    "Use the global object for platform feature detection."]]

/-- The spec's §8 example document. -/
def exampleDoc : ChapterDocument :=
  ⟨"chapter", "Variable Scope", exampleBlocks⟩

/-- Inside a code listing, a stream with no closing marker scans to the
unterminated-listing error, whose index is the count of completed blocks. -/
theorem scanBlocks_code_of_no_close (toks : List RawToken) :
    ∀ (n : Nat) (acc : List String), RawToken.codeClose ∉ toks →
      scanBlocks toks n (ScanMode.code acc) =
        Except.error ⟨"unterminated code listing", n⟩ := by
  induction toks with
  | nil => intro n acc _; rfl
  | cons t rest ih =>
    intro n acc h
    rw [List.mem_cons, not_or] at h
    cases t <;> first
      | exact absurd rfl h.1
      | exact ih _ _ h.2

/-- An error outcome survives the map over a scan's remaining blocks. -/
theorem exists_error_map {r : String} {f : List Block → List Block}
    {x : Except ValidationError (List Block)}
    (h : ∃ e, x = Except.error e ∧ e.reason = r) :
    ∃ e, x.map f = Except.error e ∧ e.reason = r := by
  obtain ⟨e, he, hr⟩ := h
  exact ⟨e, by rw [he]; rfl, hr⟩

/-- A stream holding an opening marker never followed by a closing marker
scans to the unterminated-listing error, whatever the mode and count. -/
theorem scanBlocks_error_of_unterminated (a : List RawToken) :
    ∀ (b : List RawToken) (n : Nat) (mode : ScanMode), RawToken.codeClose ∉ b →
      ∃ e, scanBlocks (a ++ RawToken.codeOpen :: b) n mode = Except.error e ∧
        e.reason = "unterminated code listing" := by
  induction a with
  | nil =>
    intro b n mode hb
    cases mode with
    | normal =>
      exact ⟨⟨"unterminated code listing", n⟩,
        scanBlocks_code_of_no_close b n [] hb, rfl⟩
    | code acc =>
      exact ⟨⟨"unterminated code listing", n⟩,
        scanBlocks_code_of_no_close b n _ hb, rfl⟩
    | callout acc =>
      exact exists_error_map ⟨⟨"unterminated code listing", n + 1⟩,
        scanBlocks_code_of_no_close b (n + 1) [] hb, rfl⟩
  | cons t a' ih =>
    intro b n mode hb
    cases mode <;> cases t <;> first
      | exact ih b _ _ hb
      | exact exists_error_map (ih b _ _ hb)

/-- When the prefix before an unterminated listing is made of one-block
tokens, the error's blockIndex is exactly the offending listing's index. -/
theorem scanBlocks_unterminated_index (ts : List RawToken) :
    ∀ (n : Nat) (body : List RawToken),
      (∀ t ∈ ts, emitsOneBlock t = true) → RawToken.codeClose ∉ body →
      scanBlocks (ts ++ RawToken.codeOpen :: body) n ScanMode.normal =
        Except.error ⟨"unterminated code listing", n + ts.length⟩ := by
  induction ts with
  | nil =>
    intro n body _ hb
    simpa using scanBlocks_code_of_no_close body n [] hb
  | cons t ts' ih =>
    intro n body hts hb
    have ht : emitsOneBlock t = true := hts t (List.mem_cons_self t ts')
    have hts' : ∀ u ∈ ts', emitsOneBlock u = true :=
      fun u hu => hts u (List.mem_cons_of_mem t hu)
    have harith : n + (t :: ts').length = (n + 1) + ts'.length := by
      simp [List.length_cons]; omega
    cases t with
    | heading l s =>
      show (scanBlocks (ts' ++ RawToken.codeOpen :: body) (n + 1) ScanMode.normal).map
          (fun bs => Block.heading l s :: bs) = _
      rw [ih (n + 1) body hts' hb, harith]
      rfl
    | text s =>
      show (scanBlocks (ts' ++ RawToken.codeOpen :: body) (n + 1) ScanMode.normal).map
          (fun bs => Block.paragraph s :: bs) = _
      rw [ih (n + 1) body hts' hb, harith]
      rfl
    | bullet s =>
      show (scanBlocks (ts' ++ RawToken.codeOpen :: body) (n + 1) ScanMode.normal).map
          (fun bs => Block.paragraph s :: bs) = _
      rw [ih (n + 1) body hts' hb, harith]
      rfl
    | codeOpen => simp [emitsOneBlock] at ht
    | codeClose => simp [emitsOneBlock] at ht
    | calloutHeader => simp [emitsOneBlock] at ht

/-- A block list holding a level-3 heading with no level-1/level-2 heading
before it makes the nesting check report a violation. -/
theorem findNestingViolation_of_violation (bs : List Block) :
    ∀ (k i : Nat) (t : String), bs.get? i = some (Block.heading 3 t) →
      (∀ j, j < i → ¬ IsH12At bs j) →
      ∃ m, findNestingViolation bs k false = some m := by
  induction bs with
  | nil => intro k i t hget _; simp at hget
  | cons b rest ih =>
    intro k i t hget hpre
    cases i with
    | zero =>
      have hb : b = Block.heading 3 t := by
        have : some b = some (Block.heading 3 t) := hget
        exact Option.some.inj this
      subst hb
      exact ⟨k, by simp [findNestingViolation, isH3]⟩
    | succ i' =>
      have hb0 : ¬ IsH12At (b :: rest) 0 := hpre 0 (Nat.succ_pos i')
      have hb12 : isH12 b = false := by
        cases his : isH12 b with
        | false => rfl
        | true => exact absurd ⟨b, rfl, his⟩ hb0
      have hget' : rest.get? i' = some (Block.heading 3 t) := hget
      have hpre' : ∀ j, j < i' → ¬ IsH12At rest j := by
        intro j hj hcontra
        obtain ⟨c, hc, hc12⟩ := hcontra
        exact hpre (j + 1) (Nat.succ_lt_succ hj) ⟨c, hc, hc12⟩
      cases h3 : isH3 b with
      | true => exact ⟨k, by simp [findNestingViolation, h3]⟩
      | false =>
        have hstep : findNestingViolation (b :: rest) k false =
            findNestingViolation rest (k + 1) false := by
          simp [findNestingViolation, h3, hb12]
        rw [hstep]
        exact ih (k + 1) i' t hget' hpre'

/-- Encoding a non-special character leaves it in place. -/
theorem encodeList_cons_plain (c : Char) (xs : List Char)
    (h : isSpecialChar c = false) :
    encodeList (c :: xs) = c :: encodeList xs := by
  simp only [isSpecialChar, Bool.or_eq_false_iff, decide_eq_false_iff_not] at h
  simp [encodeList, entityOf, h.1.1.1, h.1.1.2, h.1.2, h.2]

/-- Decoding then re-encoding an entity-encoded raw form (no literal
special character in it) restores it exactly. -/
theorem encodeList_decodeList (s : List Char) :
    (∀ c ∈ s, isSpecialChar c = false) → encodeList (decodeList s) = s := by
  induction s using decodeList.induct with
  | case1 rest ih =>
    intro h
    have hrest : ∀ c ∈ rest, isSpecialChar c = false := fun c hc => h c (by simp [hc])
    show '&' :: '#' :: '1' :: '2' :: '3' :: ';' :: encodeList (decodeList rest) = _
    rw [ih hrest]
  | case2 rest ih =>
    intro h
    have hrest : ∀ c ∈ rest, isSpecialChar c = false := fun c hc => h c (by simp [hc])
    show '&' :: '#' :: '1' :: '2' :: '5' :: ';' :: encodeList (decodeList rest) = _
    rw [ih hrest]
  | case3 rest ih =>
    intro h
    have hrest : ∀ c ∈ rest, isSpecialChar c = false := fun c hc => h c (by simp [hc])
    show '&' :: '#' :: '6' :: '0' :: ';' :: encodeList (decodeList rest) = _
    rw [ih hrest]
  | case4 rest ih =>
    intro h
    have hrest : ∀ c ∈ rest, isSpecialChar c = false := fun c hc => h c (by simp [hc])
    show '&' :: '#' :: '6' :: '2' :: ';' :: encodeList (decodeList rest) = _
    rw [ih hrest]
  | case5 c rest h1 h2 h3 h4 ih =>
    intro h
    have hc : isSpecialChar c = false := h c (List.mem_cons_self c rest)
    have hrest : ∀ u ∈ rest, isSpecialChar u = false := fun u hu => h u (by simp [hu])
    rw [decodeList.eq_5 c rest h1 h2 h3 h4, encodeList_cons_plain c _ hc, ih hrest]
  | case6 => intro _; rfl

/-- C1: render is a pure, deterministic function: on any two successful
parses of the same raw input it returns identical output sequences, and
its output is exactly the stored block sequence, in stored order. -/
theorem render_pure_deterministic :
    (∀ (x : List RawToken) (d₁ d₂ : ChapterDocument),
        parse x = Except.ok d₁ → parse x = Except.ok d₂ → render d₁ = render d₂)
    ∧ ∀ d : ChapterDocument, render d = d.blocks := by
  constructor
  · intro x d₁ d₂ h₁ h₂
    rw [h₁] at h₂
    cases h₂
    rfl
  · intro d
    rfl

/-- Witness for C1 at a concrete input. -/
theorem render_pure_deterministic_witness :
    render ⟨"chapter", "T", [Block.heading 1 "T"]⟩ =
      render ⟨"chapter", "T", [Block.heading 1 "T"]⟩ :=
  render_pure_deterministic.1 [RawToken.heading 1 "T"] _ _ rfl rfl

/-- C2: a scanned block sequence holding a level-3 heading with no
preceding level-1 or level-2 heading makes parse fail with a
ValidationError (reason "heading nesting violation"), rejecting the
document rather than repairing it. -/
theorem parse_rejects_nesting_violation (toks : List RawToken) (bs : List Block)
    (hscan : scanBlocks toks 0 ScanMode.normal = Except.ok bs)
    (hviol : ViolatesNesting bs) :
    ∃ e, parse toks = Except.error e ∧ e.reason = "heading nesting violation" := by
  obtain ⟨i, t, hget, hpre⟩ := hviol
  obtain ⟨m, hm⟩ := findNestingViolation_of_violation bs 0 i t hget hpre
  refine ⟨⟨"heading nesting violation", m⟩, ?_, rfl⟩
  unfold parse
  rw [hscan]
  simp [hm]

/-- Witness for C2 at a concrete input: a lone level-3 heading. -/
theorem parse_rejects_nesting_violation_witness :
    ∃ e, parse [RawToken.heading 3 "Lonely"] = Except.error e ∧
      e.reason = "heading nesting violation" :=
  parse_rejects_nesting_violation [RawToken.heading 3 "Lonely"]
    [Block.heading 3 "Lonely"] rfl
    ⟨0, "Lonely", rfl, fun j hj => absurd hj (Nat.not_lt_zero j)⟩

/-- C3: a raw input holding a code listing truncated before its matching
closing marker makes parse fail with a ValidationError (never crash, never
silently truncate); when the prefix is made of one-block tokens the
error's blockIndex is exactly the offending listing's index. -/
theorem parse_unterminated_listing :
    (∀ toks : List RawToken, HasUnterminatedListing toks →
        ∃ e, parse toks = Except.error e ∧ e.reason = "unterminated code listing")
    ∧ ∀ (ts body : List RawToken), (∀ t ∈ ts, emitsOneBlock t = true) →
        RawToken.codeClose ∉ body →
        parse (ts ++ RawToken.codeOpen :: body) =
          Except.error ⟨"unterminated code listing", ts.length⟩ := by
  constructor
  · intro toks hu
    obtain ⟨a, b, happ, hb⟩ := hu
    subst happ
    obtain ⟨e, he, hr⟩ := scanBlocks_error_of_unterminated a b 0 ScanMode.normal hb
    refine ⟨e, ?_, hr⟩
    unfold parse
    rw [he]
  · intro ts body hts hb
    have h := scanBlocks_unterminated_index ts 0 body hts hb
    unfold parse
    rw [h]
    simp

/-- Witness for C3 at a concrete input: a listing opened after one
paragraph and never closed. -/
theorem parse_unterminated_listing_witness :
    parse [RawToken.text "intro", RawToken.codeOpen] =
      Except.error ⟨"unterminated code listing", 1⟩ :=
  parse_unterminated_listing.2 [RawToken.text "intro"] [] (by decide) (by simp)

/-- C4: decoding an entity-encoded raw form into literal text and
re-encoding restores the original bytes exactly; in particular the brace
entity decodes to a literal brace and re-encodes to the same entity, and a
parsed CodeListing stores the decoded literal text. -/
theorem codeListing_roundtrip :
    (∀ s : List Char, (∀ c ∈ s, isSpecialChar c = false) →
        encodeList (decodeList s) = s)
    ∧ decodeEntities "&#123;" = "\x7b" ∧ encodeEntities "\x7b" = "&#123;"
    ∧ parse [RawToken.codeOpen, RawToken.text "f() &#123;&#125;", RawToken.codeClose] =
        Except.ok ⟨"chapter", "", [Block.codeListing "f() \x7b\x7d"]⟩ :=
  ⟨encodeList_decodeList, by decide, by decide, by rfl⟩

/-- Witness for C4 at a concrete input: a raw fragment holding the brace
entity round-trips byte for byte. -/
theorem codeListing_roundtrip_witness :
    encodeList (decodeList ("x &#123; y".data)) = "x &#123; y".data :=
  codeListing_roundtrip.1 ("x &#123; y".data) (by decide)

/-- C5: a successful parse never returns an empty block sequence, and a
raw input whose scan yields no block is rejected with a ValidationError. -/
theorem parse_blocks_nonempty :
    (∀ (toks : List RawToken) (d : ChapterDocument),
        parse toks = Except.ok d → d.blocks ≠ [])
    ∧ ∀ toks : List RawToken, scanBlocks toks 0 ScanMode.normal = Except.ok [] →
        parse toks = Except.error ⟨"empty document", 0⟩ := by
  constructor
  · intro toks d h
    unfold parse at h
    split at h
    · cases h
    · split at h
      · cases h
      · split at h
        · cases h
        · rename_i hemp
          cases h
          simpa [List.isEmpty_iff] using hemp
  · intro toks h
    unfold parse
    rw [h]
    rfl

/-- Witness for C5 at a concrete input. -/
theorem parse_blocks_nonempty_witness :
    (⟨"chapter", "", [Block.paragraph "hi"]⟩ : ChapterDocument).blocks ≠ [] :=
  parse_blocks_nonempty.1 [RawToken.text "hi"] _ rfl

/-- C6: parse is deterministic and all-or-nothing: its outcomes on one
input are equal, and every outcome is either a whole document or a single
ValidationError (no partial success). -/
theorem parse_deterministic_all_or_nothing :
    (∀ (toks : List RawToken) (r₁ r₂ : Except ValidationError ChapterDocument),
        parse toks = r₁ → parse toks = r₂ → r₁ = r₂)
    ∧ ∀ toks : List RawToken,
        (∃ d, parse toks = Except.ok d) ∨ ∃ e, parse toks = Except.error e := by
  constructor
  · intro toks r₁ r₂ h₁ h₂
    rw [← h₁, ← h₂]
  · intro toks
    cases h : parse toks with
    | ok d => exact Or.inl ⟨d, rfl⟩
    | error e => exact Or.inr ⟨e, rfl⟩

/-- Witness for C6 at a concrete input. -/
theorem parse_deterministic_all_or_nothing_witness :
    parse [RawToken.text "p"] = parse [RawToken.text "p"] :=
  parse_deterministic_all_or_nothing.1 [RawToken.text "p"] _ _ rfl rfl

/-- C7: the spec's example — a level-1 heading "Variable Scope", a level-3
heading "Item 8: Minimize Use of the Global Object" and a trailing
"remember" callout — parses to a 3-block document, and render returns the
same 3 blocks in the same order. -/
theorem example_three_blocks :
    parse exampleRaw = Except.ok exampleDoc
    ∧ exampleDoc.blocks.length = 3
    ∧ render exampleDoc = exampleBlocks := by
  refine ⟨by rfl, by rfl, by rfl⟩

/-- C8: a ChapterDocument is immutable: the core exposes only parse and
render over immutable values, and rendering returns the displayable blocks
while the document after the call is the document before it, unchanged. -/
theorem chapterDocument_immutable :
    ∀ d : ChapterDocument,
      renderObserving d = (render d, d)
      ∧ (renderObserving d).2 = d
      ∧ render d = d.blocks :=
  fun _ => ⟨rfl, rfl, rfl⟩

set_option maxRecDepth 100000 in
/-- C9: in the chapter source the 14 code-listing begin markers and the 14
end markers strictly alternate, each opener matched by a closer before the
next opener, and parse succeeds on the chapter, so its unterminated-listing
error branch is unreachable on this repository's own content. -/
theorem chapter_code_delimiters_balanced :
    chapterCodeDelims =
      (List.replicate 14 [RawToken.codeOpen, RawToken.codeClose]).flatten
    ∧ parseSucceeds chapterRaw = true := by
  refine ⟨by decide, by decide⟩

set_option maxRecDepth 100000 in
/-- C10: the chapter source carries exactly one level-1 heading (its first
line) and then only the two level-3 headings of Items 8 and 10, no level-2
heading; the titles of Items 9 and 11 through 17 stand as plain paragraph
text with no heading markup; and the chapter passes the heading-nesting
check. -/
theorem chapter_heading_structure :
    chapterHeadings = [(1, "Variable Scope"),
      (3, "Item 8: Minimize Use of the Global Object"), (3, "Item 10: Avoid with")]
    ∧ chapterRaw.head? = some (RawToken.heading 1 "Variable Scope")
    ∧ plainItemTitles.all (fun t => chapterRaw.contains (RawToken.text t)) = true
    ∧ plainItemTitles.all (fun t => chapterBlocks.contains (Block.paragraph t)) = true
    ∧ findNestingViolation chapterBlocks 0 false = none := by
  refine ⟨by decide, by decide, by decide, by decide, by decide⟩

end ChapterModel
